import Mathlib

/-!
Shallow embedding of the paylater EMI core
(src/project/contracts/EMIContract.sol: contracts `EMIContract`,
`EMIManager`, `UserProfile`, `LiquidityPool`).

Modelling conventions:
* `uint256` is `Nat`; Solidity 0.8 checked subtraction is `checkedSub`
  (an underflow reverts, modelled as an error result).
* A reverting operation returns `Except Err _`; an `error` result means the
  transaction reverted and no state changed (Solidity revert semantics).
* ERC20 token movements are modelled by a small `Ledger` over the five roles
  that appear in the contracts (borrower, EMI contract, pool, merchant,
  liquidity provider); a transfer fails when the source balance is short.
* `bytes32` transaction hashes, events and addresses of other users are
  omitted: no claim depends on them.
-/

namespace PayLater

/-- Solidity 0.8 checked subtraction on `uint256`: reverts on underflow. -/
def checkedSub (a b : Nat) : Option Nat :=
  if b ≤ a then some (a - b) else none

/-- The revert reasons of the contracts (one variant per distinct `require`
message / arithmetic panic that the claims are about). -/
inductive Err where
  | amountBelowMinimum
  | transferFailed
  | noActiveLiquidity
  | insufficientProviderLiquidity
  | insufficientPoolLiquidity
  | insufficientLiquidity
  | noInterestToClaim
  | insufficientPoolFunds
  | arithmeticUnderflow
  | depositAlreadyPaid
  | invalidStatusForDeposit
  | depositTransferFailed
  | depositNotPaid
  | emiNotActive
  | invalidInstallmentNumber
  | payInstallmentsInOrder
  | installmentAlreadyPaid
  | paymentTransferFailed
  | depositReturnFailed
  | earlyPaymentTransferFailed
  | invalidAmount
  | amountExceedsRemaining
  | indexOutOfBounds
  | noActiveEMIs
  | profileAlreadyExists
  deriving DecidableEq, Repr

/-- The roles that hold PYUSD in the modelled system. -/
inductive Addr where
  | borrower
  | emi
  | pool
  | merchant
  | provider
  deriving DecidableEq, Repr

/-- Token balances of the five roles (the ERC20 `pyusdToken` restricted to
the addresses the contracts move value between). -/
structure Ledger where
  borrower : Nat
  emi : Nat
  pool : Nat
  merchant : Nat
  provider : Nat
  deriving DecidableEq, Repr

def Ledger.get (L : Ledger) : Addr → Nat
  | .borrower => L.borrower
  | .emi => L.emi
  | .pool => L.pool
  | .merchant => L.merchant
  | .provider => L.provider

def Ledger.set (L : Ledger) : Addr → Nat → Ledger
  | .borrower, v => { L with borrower := v }
  | .emi, v => { L with emi := v }
  | .pool, v => { L with pool := v }
  | .merchant, v => { L with merchant := v }
  | .provider, v => { L with provider := v }

/-- ERC20 `transfer`/`transferFrom`: moves `amount` from `src` to `dst`,
failing (the callers `require` the boolean result) when the source balance
is insufficient. -/
def transferTok (L : Ledger) (src dst : Addr) (amount : Nat) : Option Ledger :=
  if amount ≤ L.get src then
    some ((L.set src (L.get src - amount)).set dst (L.get dst + amount))
  else
    none

/-! ## LiquidityPool (EMIContract.sol lines 823-1047) -/

/-- `LiquidityPool.PoolStats`. -/
structure PoolStats where
  totalLiquidity : Nat
  availableLiquidity : Nat
  lockedLiquidity : Nat
  totalEMIsFinanced : Nat
  totalInterestEarned : Nat
  deriving DecidableEq, Repr

/-- `LiquidityPool.LiquidityProvider`. -/
structure LiquidityProvider where
  amount : Nat
  timestamp : Nat
  interestEarned : Nat
  isActive : Bool
  deriving DecidableEq, Repr

/-- `LiquidityPool.INTEREST_RATE` (800 = 8% APY, basis points). -/
def INTEREST_RATE : Nat := 800

/-- `LiquidityPool.MIN_LIQUIDITY` (1000 PYUSD with 6 decimals). -/
def MIN_LIQUIDITY : Nat := 1000 * 10 ^ 6

/-- `LiquidityPool.calculatePendingInterest` (lines 969-980).
`block.timestamp - providerData.timestamp` is checked subtraction, hence the
`Option`. -/
def calculatePendingInterest (p : LiquidityProvider) (now : Nat) : Option Nat :=
  if p.isActive = false ∨ p.amount = 0 then
    some 0
  else
    match checkedSub now p.timestamp with
    | none => none
    | some timeElapsed =>
      let annualInterest := p.amount * INTEREST_RATE / 10000
      some (annualInterest * timeElapsed / (365 * 86400))

/-- `LiquidityPool.addLiquidity` (lines 869-897): `msg.sender` is the
provider role of the ledger. -/
def addLiquidity (s : PoolStats) (p : LiquidityProvider) (L : Ledger)
    (amount now : Nat) : Except Err (PoolStats × LiquidityProvider × Ledger) :=
  if amount < MIN_LIQUIDITY then .error .amountBelowMinimum
  else
    match transferTok L .provider .pool amount with
    | none => .error .transferFailed
    | some L =>
      match calculatePendingInterest p now with
      | none => .error .arithmeticUnderflow
      | some pendingInterest =>
        let p := if p.isActive = true ∧ 0 < pendingInterest then
            { p with interestEarned := p.interestEarned + pendingInterest }
          else p
        let p := { p with amount := p.amount + amount, timestamp := now, isActive := true }
        let s := { s with totalLiquidity := s.totalLiquidity + amount,
                          availableLiquidity := s.availableLiquidity + amount }
        .ok (s, p, L)

/-- `LiquidityPool.removeLiquidity` (lines 899-935). -/
def removeLiquidity (s : PoolStats) (p : LiquidityProvider) (L : Ledger)
    (amount now : Nat) : Except Err (PoolStats × LiquidityProvider × Ledger) :=
  if p.isActive = false then .error .noActiveLiquidity
  else if p.amount < amount then .error .insufficientProviderLiquidity
  else if s.availableLiquidity < amount then .error .insufficientPoolLiquidity
  else
    match calculatePendingInterest p now with
    | none => .error .arithmeticUnderflow
    | some pendingInterest =>
      let p := { p with interestEarned := p.interestEarned + pendingInterest,
                        amount := p.amount - amount, timestamp := now }
      let p := if p.amount = 0 then { p with isActive := false } else p
      match checkedSub s.totalLiquidity amount with
      | none => .error .arithmeticUnderflow
      | some tl =>
        let s := { s with totalLiquidity := tl,
                          availableLiquidity := s.availableLiquidity - amount }
        let totalWithdrawal := amount + p.interestEarned
        let p := { p with interestEarned := 0 }
        match transferTok L .pool .provider totalWithdrawal with
        | none => .error .transferFailed
        | some L => .ok (s, p, L)

/-- `LiquidityPool.transferToMerchant` (lines 937-953). -/
def transferToMerchant (s : PoolStats) (L : Ledger) (amount : Nat) :
    Except Err (PoolStats × Ledger) :=
  if s.availableLiquidity < amount then .error .insufficientLiquidity
  else
    let s := { s with availableLiquidity := s.availableLiquidity - amount,
                      lockedLiquidity := s.lockedLiquidity + amount,
                      totalEMIsFinanced := s.totalEMIsFinanced + 1 }
    match transferTok L .pool .merchant amount with
    | none => .error .transferFailed
    | some L => .ok (s, L)

/-- `LiquidityPool.receiveEMIPayment` (lines 955-967):
`poolStats.lockedLiquidity -= amount` is checked subtraction. -/
def receiveEMIPayment (s : PoolStats) (amount : Nat) : Except Err PoolStats :=
  match checkedSub s.lockedLiquidity amount with
  | none => .error .arithmeticUnderflow
  | some locked =>
    let s := { s with lockedLiquidity := locked,
                      availableLiquidity := s.availableLiquidity + amount }
    let interestEarned := amount / 100
    .ok { s with totalInterestEarned := s.totalInterestEarned + interestEarned }

/-- `LiquidityPool.claimInterest` (lines 982-1003). -/
def claimInterest (s : PoolStats) (p : LiquidityProvider) (L : Ledger)
    (now : Nat) : Except Err (PoolStats × LiquidityProvider × Ledger) :=
  if p.isActive = false then .error .noActiveLiquidity
  else
    match calculatePendingInterest p now with
    | none => .error .arithmeticUnderflow
    | some pendingInterest =>
      let totalInterest := p.interestEarned + pendingInterest
      if totalInterest = 0 then .error .noInterestToClaim
      else if s.availableLiquidity < totalInterest then .error .insufficientPoolFunds
      else
        let p := { p with interestEarned := 0, timestamp := now }
        let s := { s with availableLiquidity := s.availableLiquidity - totalInterest }
        match transferTok L .pool .provider totalInterest with
        | none => .error .transferFailed
        | some L => .ok (s, p, L)

/-- The spec's pool accounting invariant (§4.4 / §8). -/
def poolInvariant (s : PoolStats) : Prop :=
  s.availableLiquidity + s.lockedLiquidity = s.totalLiquidity

instance (s : PoolStats) : Decidable (poolInvariant s) := by
  unfold poolInvariant; infer_instance

/-! ## UserProfile (EMIContract.sol lines 571-815) -/

/-- `UserProfile.PaymentType` (same variants in `EMIContract`). -/
inductive PaymentType where
  | Deposit
  | Installment
  | EarlyPayment
  | LateFee
  deriving DecidableEq, Repr

/-- `UserProfile.Profile`. -/
structure Profile where
  totalEMIs : Nat
  activeEMIs : Nat
  completedEMIs : Nat
  defaultedEMIs : Nat
  creditScore : Nat
  totalAmountFinanced : Nat
  onTimePaymentRate : Nat
  joinDate : Nat
  isVerified : Bool
  deriving DecidableEq, Repr

/-- `UserProfile.INITIAL_CREDIT_SCORE`. -/
def INITIAL_CREDIT_SCORE : Nat := 650

/-- `UserProfile.MAX_CREDIT_SCORE`. -/
def MAX_CREDIT_SCORE : Nat := 850

/-- `UserProfile.MIN_CREDIT_SCORE`. -/
def MIN_CREDIT_SCORE : Nat := 300

/-- `UserProfile._updateCreditScore` (lines 749-763): clamps the new score to
`[MIN_CREDIT_SCORE, MAX_CREDIT_SCORE]` and stores it. -/
def setCreditScore (p : Profile) (newScore : Nat) : Profile :=
  { p with creditScore :=
      if newScore > MAX_CREDIT_SCORE then MAX_CREDIT_SCORE
      else if newScore < MIN_CREDIT_SCORE then MIN_CREDIT_SCORE
      else newScore }

/-- `UserProfile._updateCreditScoreForPayment` (lines 727-747). -/
def updateCreditScoreForPayment (p : Profile) (paymentType : PaymentType)
    (onTime : Bool) : Profile :=
  match paymentType with
  | .Installment =>
    if onTime then
      if p.creditScore < MAX_CREDIT_SCORE then setCreditScore p (p.creditScore + 2) else p
    else
      setCreditScore p (if p.creditScore > 10 then p.creditScore - 10 else MIN_CREDIT_SCORE)
  | .EarlyPayment =>
    if p.creditScore < MAX_CREDIT_SCORE then setCreditScore p (p.creditScore + 5) else p
  | _ => p

/-- `UserProfile.recordPayment` (lines 662-689), profile part: the payment
history push has no effect on the profile; the score update is invoked with
the literal `true` for `onTime` (line 686). -/
def recordPayment (p : Profile) (paymentType : PaymentType) : Profile :=
  updateCreditScoreForPayment p paymentType true

/-- `UserProfile.completeEMI` (lines 691-703). -/
def completeEMI (p : Profile) : Except Err Profile :=
  if p.activeEMIs = 0 then .error .noActiveEMIs
  else
    let p := { p with activeEMIs := p.activeEMIs - 1,
                      completedEMIs := p.completedEMIs + 1 }
    .ok (setCreditScore p (p.creditScore + 10))

/-- `UserProfile.recordDefault` (lines 705-718). -/
def recordDefault (p : Profile) : Except Err Profile :=
  if p.activeEMIs = 0 then .error .noActiveEMIs
  else
    let p := { p with activeEMIs := p.activeEMIs - 1,
                      defaultedEMIs := p.defaultedEMIs + 1 }
    let newScore := if p.creditScore > 100 then p.creditScore - 100 else MIN_CREDIT_SCORE
    .ok (setCreditScore p newScore)

/-- `UserProfile.recordLatePayment` (lines 720-725). -/
def recordLatePayment (p : Profile) : Profile :=
  setCreditScore p (if p.creditScore > 5 then p.creditScore - 5 else MIN_CREDIT_SCORE)

/-- `UserProfile.updateCreditScore` (lines 802-804, owner entry point). -/
def updateCreditScoreOwner (p : Profile) (newScore : Nat) : Profile :=
  setCreditScore p newScore

/-- The profile a fresh mapping slot holds before `createProfile` ran
(Solidity zero-initialised struct). -/
def emptyProfile : Profile :=
  { totalEMIs := 0, activeEMIs := 0, completedEMIs := 0, defaultedEMIs := 0,
    creditScore := 0, totalAmountFinanced := 0, onTimePaymentRate := 0,
    joinDate := 0, isVerified := false }

/-- The profile written by `UserProfile.createProfile` (lines 623-639). -/
def initialProfile (now : Nat) : Profile :=
  { totalEMIs := 0, activeEMIs := 0, completedEMIs := 0, defaultedEMIs := 0,
    creditScore := INITIAL_CREDIT_SCORE, totalAmountFinanced := 0,
    onTimePaymentRate := 10000, joinDate := now, isVerified := false }

/-- The `userProfiles` mapping, keyed by user address (as `Nat`): absent
keys read as the zero struct. -/
abbrev ProfileStore := List (Nat × Profile)

/-- `UserProfile.getUserProfile` (lines 641-643): mapping read, returning
the zero-initialised struct for users without a profile. -/
def getUserProfile (store : ProfileStore) (user : Nat) : Profile :=
  match List.lookup user store with
  | some p => p
  | none => emptyProfile

/-- `UserProfile.createProfile` (lines 623-639):
`require(userProfiles[user].joinDate == 0)` then writes `initialProfile`. -/
def createProfile (store : ProfileStore) (user now : Nat) :
    Except Err ProfileStore :=
  if (getUserProfile store user).joinDate ≠ 0 then .error .profileAlreadyExists
  else .ok ((user, initialProfile now) :: store)

/-- The profile-mutating operations of `UserProfile` that touch the credit
score, as a closed alphabet for operation sequences. -/
inductive ProfileOp where
  | recordPayment (t : PaymentType)
  | completeEMI
  | recordDefault
  | recordLatePayment
  | updateCreditScore (newScore : Nat)
  deriving DecidableEq, Repr

/-- Run one profile operation; a reverting operation (failed `require`)
leaves the profile unchanged. -/
def applyProfileOp (p : Profile) : ProfileOp → Profile
  | .recordPayment t => recordPayment p t
  | .completeEMI =>
    match completeEMI p with
    | .ok q => q
    | .error _ => p
  | .recordDefault =>
    match recordDefault p with
    | .ok q => q
    | .error _ => p
  | .recordLatePayment => recordLatePayment p
  | .updateCreditScore n => updateCreditScoreOwner p n

/-! ## EMIManager eligibility (EMIContract.sol lines 361-556) -/

/-- `EMIManager.EMIEligibility`. -/
structure EMIEligibility where
  isEligible : Bool
  creditScore : Nat
  maxAmount : Nat
  reason : String
  deriving DecidableEq, Repr

/-- `EMIManager.MIN_CREDIT_SCORE` (eligibility threshold, 600). -/
def MANAGER_MIN_CREDIT_SCORE : Nat := 600

/-- `EMIManager.calculateMaxAmount` (lines 457-465). -/
def calculateMaxAmount (creditScore onTimeRate : Nat) : Nat :=
  let baseAmount := (creditScore - MANAGER_MIN_CREDIT_SCORE) * 10000 /
      (MAX_CREDIT_SCORE - MANAGER_MIN_CREDIT_SCORE)
  let historyMultiplier := if onTimeRate > 9500 then 120
    else if onTimeRate > 9000 then 110 else 100
  baseAmount * historyMultiplier / 100

/-- `EMIManager.verifyEligibility` (lines 423-455). -/
def verifyEligibility (store : ProfileStore) (user : Nat) : EMIEligibility :=
  let profile := getUserProfile store user
  if profile.creditScore < MANAGER_MIN_CREDIT_SCORE then
    { isEligible := false, creditScore := profile.creditScore, maxAmount := 0,
      reason := "Credit score too low" }
  else if profile.activeEMIs > 5 then
    { isEligible := false, creditScore := profile.creditScore, maxAmount := 0,
      reason := "Too many active EMIs" }
  else
    { isEligible := true, creditScore := profile.creditScore,
      maxAmount := calculateMaxAmount profile.creditScore profile.onTimePaymentRate,
      reason := "Eligible for EMI" }

/-! ## EMIContract loan engine (EMIContract.sol lines 10-351) -/

/-- `EMIContract.EMIStatus`. -/
inductive EMIStatus where
  | Created
  | Active
  | Completed
  | Defaulted
  | Cancelled
  deriving DecidableEq, Repr

/-- `EMIContract.InstallmentStatus`. -/
inductive InstallmentStatus where
  | Pending
  | Paid
  | Overdue
  | Waived
  deriving DecidableEq, Repr

/-- `EMIContract.Installment` (transaction hash omitted). -/
structure Installment where
  installmentNumber : Nat
  dueDate : Nat
  amount : Nat
  status : InstallmentStatus
  paidDate : Nat
  deriving DecidableEq, Repr

/-- `EMIContract.PaymentRecord` (transaction hash omitted). -/
structure PaymentRecord where
  amount : Nat
  timestamp : Nat
  paymentType : PaymentType
  deriving DecidableEq, Repr

/-- `EMIContract.GRACE_PERIOD` (3 days in seconds). -/
def GRACE_PERIOD : Nat := 3 * 86400

/-- `EMIContract.LATE_FEE_PERCENTAGE` (500 bps = 5%). -/
def LATE_FEE_PERCENTAGE : Nat := 500

/-- The mutable storage of one `EMIContract` instance. -/
structure LoanState where
  totalAmount : Nat
  termMonths : Nat
  interestRate : Nat
  depositAmount : Nat
  monthlyAmount : Nat
  remainingAmount : Nat
  depositPaid : Bool
  nextPaymentDate : Nat
  paymentsCompleted : Nat
  status : EMIStatus
  installments : List Installment
  paymentHistory : List PaymentRecord
  deriving DecidableEq, Repr

/-- `EMIContract` constructor together with `_generateInstallmentSchedule`
(lines 75-130): `now` is `block.timestamp` at deployment. Callers must have
`depositAmount ≤ totalAmount` and `0 < termMonths` or the constructor
reverts (checked subtraction / division by zero); those side conditions are
carried by the reachability relation. -/
def mkLoan (totalAmount termMonths interestRate depositAmount now : Nat) :
    LoanState :=
  let principalAmount := totalAmount - depositAmount
  let totalInterest := principalAmount * interestRate * termMonths / (10000 * 12)
  let totalWithInterest := principalAmount + totalInterest
  let monthlyAmount := totalWithInterest / termMonths
  let installments := (List.range termMonths).map fun i =>
    { installmentNumber := i + 1, dueDate := now + (i + 1) * (30 * 86400),
      amount := monthlyAmount, status := InstallmentStatus.Pending,
      paidDate := 0 : Installment }
  { totalAmount := totalAmount, termMonths := termMonths,
    interestRate := interestRate, depositAmount := depositAmount,
    monthlyAmount := monthlyAmount, remainingAmount := totalWithInterest,
    depositPaid := false,
    nextPaymentDate := if termMonths = 0 then 0 else now + 30 * 86400,
    paymentsCompleted := 0, status := EMIStatus.Created,
    installments := installments, paymentHistory := [] }

/-- `EMIContract.processDeposit` (lines 132-162). The deposit is pulled from
the borrower into the EMI contract, then the pool disburses the full
`totalAmount` to the merchant; any failure reverts the whole operation. -/
def processDeposit (l : LoanState) (pool : PoolStats) (prof : Profile)
    (L : Ledger) (now : Nat) :
    Except Err (LoanState × PoolStats × Profile × Ledger) :=
  if l.depositPaid = true then .error .depositAlreadyPaid
  else if l.status ≠ EMIStatus.Created then .error .invalidStatusForDeposit
  else
    match transferTok L .borrower .emi l.depositAmount with
    | none => .error .depositTransferFailed
    | some L =>
      match transferToMerchant pool L l.totalAmount with
      | .error e => .error e
      | .ok (pool, L) =>
        let l := { l with depositPaid := true, status := EMIStatus.Active }
        let l := { l with paymentHistory := l.paymentHistory ++
            [{ amount := l.depositAmount, timestamp := now,
               paymentType := PaymentType.Deposit }] }
        let prof := recordPayment prof PaymentType.Deposit
        .ok (l, pool, prof, L)

/-- `EMIContract.processInstallmentPayment` (lines 164-221). -/
def processInstallmentPayment (l : LoanState) (prof : Profile) (L : Ledger)
    (n now : Nat) : Except Err (LoanState × Profile × Ledger) :=
  if l.depositPaid = false then .error .depositNotPaid
  else if l.status ≠ EMIStatus.Active then .error .emiNotActive
  else if n = 0 ∨ l.termMonths < n then .error .invalidInstallmentNumber
  else if n ≠ l.paymentsCompleted + 1 then .error .payInstallmentsInOrder
  else
    match l.installments.get? (n - 1) with
    | none => .error .indexOutOfBounds
    | some inst =>
      if inst.status ≠ InstallmentStatus.Pending then .error .installmentAlreadyPaid
      else
        let paymentAmount :=
          if inst.dueDate + GRACE_PERIOD < now then
            inst.amount + inst.amount * LATE_FEE_PERCENTAGE / 10000
          else inst.amount
        match transferTok L .borrower .pool paymentAmount with
        | none => .error .paymentTransferFailed
        | some L =>
          let inst' := { inst with status := InstallmentStatus.Paid, paidDate := now }
          let l := { l with installments := l.installments.set (n - 1) inst',
                            paymentsCompleted := l.paymentsCompleted + 1 }
          match checkedSub l.remainingAmount inst.amount with
          | none => .error .arithmeticUnderflow
          | some rem =>
            let l := { l with remainingAmount := rem }
            let next : Except Err (LoanState × Ledger) :=
              if l.paymentsCompleted < l.termMonths then
                match l.installments.get? l.paymentsCompleted with
                | none => .error .indexOutOfBounds
                | some nxt => .ok ({ l with nextPaymentDate := nxt.dueDate }, L)
              else
                match transferTok L .emi .borrower l.depositAmount with
                | none => .error .depositReturnFailed
                | some L =>
                  .ok ({ l with nextPaymentDate := 0,
                                status := EMIStatus.Completed }, L)
            match next with
            | .error e => .error e
            | .ok (l, L) =>
              let l := { l with paymentHistory := l.paymentHistory ++
                  [{ amount := paymentAmount, timestamp := now,
                     paymentType := PaymentType.Installment }] }
              let prof := recordPayment prof PaymentType.Installment
              .ok (l, prof, L)

/-- `EMIContract._adjustInstallmentsForEarlyPayment`'s loop (lines 276-278),
unrolled structurally: sets the `amount` of the installments at indices
`i` with `paymentsCompleted ≤ i < termMonths` to `newAmount`. -/
def adjustAmountsFrom (i pc term newAmount : Nat) :
    List Installment → List Installment
  | [] => []
  | inst :: rest =>
    (if pc ≤ i ∧ i < term then { inst with amount := newAmount } else inst) ::
      adjustAmountsFrom (i + 1) pc term newAmount rest

/-- `EMIContract._adjustInstallmentsForEarlyPayment` (lines 270-279). Note
the source computes `remainingAmount - earlyPaymentAmount` on the storage
value that `makeEarlyPayment` has already decremented by
`earlyPaymentAmount`; the subtraction is checked and reverts on underflow. -/
def adjustInstallmentsForEarlyPayment (l : LoanState) (earlyPaymentAmount : Nat) :
    Except Err LoanState :=
  let remainingInstallments := l.termMonths - l.paymentsCompleted
  if remainingInstallments = 0 then .ok l
  else
    match checkedSub l.remainingAmount earlyPaymentAmount with
    | none => .error .arithmeticUnderflow
    | some diff =>
      let newMonthlyAmount := diff / remainingInstallments
      .ok { l with installments :=
        (adjustAmountsFrom 0 l.paymentsCompleted l.termMonths newMonthlyAmount
          l.installments) }

/-- `EMIContract.makeEarlyPayment` (lines 223-268). -/
def makeEarlyPayment (l : LoanState) (prof : Profile) (L : Ledger)
    (amount now : Nat) : Except Err (LoanState × Profile × Ledger) :=
  if l.depositPaid = false then .error .depositNotPaid
  else if l.status ≠ EMIStatus.Active then .error .emiNotActive
  else if amount = 0 then .error .invalidAmount
  else if l.remainingAmount < amount then .error .amountExceedsRemaining
  else
    match transferTok L .borrower .pool amount with
    | none => .error .earlyPaymentTransferFailed
    | some L =>
      let l := { l with remainingAmount := l.remainingAmount - amount }
      match adjustInstallmentsForEarlyPayment l amount with
      | .error e => .error e
      | .ok l =>
        let l := { l with paymentHistory := l.paymentHistory ++
            [{ amount := amount, timestamp := now,
               paymentType := PaymentType.EarlyPayment }] }
        let prof := recordPayment prof PaymentType.EarlyPayment
        if l.remainingAmount = 0 then
          match transferTok L .emi .borrower l.depositAmount with
          | none => .error .depositReturnFailed
          | some L => .ok ({ l with status := EMIStatus.Completed }, prof, L)
        else .ok (l, prof, L)

/-- `EMIContract.markAsDefaulted` (lines 347-350): sets the status with no
status guard, then `UserProfile.recordDefault` (which reverts when the
borrower has no active EMIs). -/
def markAsDefaulted (l : LoanState) (prof : Profile) :
    Except Err (LoanState × Profile) :=
  let l := { l with status := EMIStatus.Defaulted }
  match recordDefault prof with
  | .error e => .error e
  | .ok prof => .ok (l, prof)

/-! ## Derived quantities, invariants and reachability -/

/-- Sum of the amounts of the installments marked `Paid`. -/
def sumPaid : List Installment → Nat
  | [] => 0
  | inst :: rest =>
    (if inst.status = InstallmentStatus.Paid then inst.amount else 0) + sumPaid rest

/-- Sum of the amounts of the `EarlyPayment` records of a payment history. -/
def sumEarly : List PaymentRecord → Nat
  | [] => 0
  | r :: rest =>
    (if r.paymentType = PaymentType.EarlyPayment then r.amount else 0) + sumEarly rest

/-- The financed balance the constructor sets `remainingAmount` to:
`(totalAmount - depositAmount)` plus the total interest on it. -/
def loanDebt (l : LoanState) : Nat :=
  let principalAmount := l.totalAmount - l.depositAmount
  principalAmount +
    principalAmount * l.interestRate * l.termMonths / (10000 * 12)

/-- The inductive invariant of a loan: schedule length, payment counter
bound, `Paid` exactly on the first `paymentsCompleted` installments, and the
accounting identity tying paid installments, early payments and
`remainingAmount` to the financed balance. -/
def LoanInv (l : LoanState) : Prop :=
  l.installments.length = l.termMonths ∧
  l.paymentsCompleted ≤ l.termMonths ∧
  (∀ j inst, l.installments.get? j = some inst →
    (inst.status = InstallmentStatus.Paid ↔ j < l.paymentsCompleted)) ∧
  sumPaid l.installments + sumEarly l.paymentHistory + l.remainingAmount = loanDebt l

/-- One successful loan-mutating user operation (deposit, in-order
installment payment, or early payment), with the pool, profile, ledger,
amounts and clock chosen arbitrarily. -/
inductive LoanStep : LoanState → LoanState → Prop where
  | deposit {l l' : LoanState} {pool pool' : PoolStats} {prof prof' : Profile}
      {L L' : Ledger} {now : Nat} :
      processDeposit l pool prof L now = Except.ok (l', pool', prof', L') →
      LoanStep l l'
  | installment {l l' : LoanState} {prof prof' : Profile} {L L' : Ledger}
      {n now : Nat} :
      processInstallmentPayment l prof L n now = Except.ok (l', prof', L') →
      LoanStep l l'
  | early {l l' : LoanState} {prof prof' : Profile} {L L' : Ledger}
      {amount now : Nat} :
      makeEarlyPayment l prof L amount now = Except.ok (l', prof', L') →
      LoanStep l l'

/-- Loan states reachable from a constructor call through any sequence of
deposits, installment payments and early payments. The constructor side
conditions (`0 < termMonths`, `depositAmount ≤ totalAmount`) are the ones
under which the Solidity constructor does not revert. -/
inductive ReachableLoan : LoanState → Prop where
  | created (totalAmount termMonths interestRate depositAmount now : Nat)
      (hterm : 0 < termMonths) (hdep : depositAmount ≤ totalAmount) :
      ReachableLoan (mkLoan totalAmount termMonths interestRate depositAmount now)
  | step {l l' : LoanState} : ReachableLoan l → LoanStep l l' → ReachableLoan l'

/-- Credit score within the documented bounds. -/
def scoreInRange (p : Profile) : Prop :=
  MIN_CREDIT_SCORE ≤ p.creditScore ∧ p.creditScore ≤ MAX_CREDIT_SCORE

/-- The pool invariant evaluated on an operation result carrying
`(PoolStats, LiquidityProvider, Ledger)`: reverted operations change
nothing, so they hold it vacuously. -/
def poolInvariantAfter3
    (r : Except Err (PoolStats × LiquidityProvider × Ledger)) : Prop :=
  match r with
  | .ok t => poolInvariant t.1
  | .error _ => True

/-- The pool invariant evaluated on a `(PoolStats, Ledger)` result. -/
def poolInvariantAfter2 (r : Except Err (PoolStats × Ledger)) : Prop :=
  match r with
  | .ok t => poolInvariant t.1
  | .error _ => True

/-- The pool invariant evaluated on a `PoolStats` result. -/
def poolInvariantAfter1 (r : Except Err PoolStats) : Prop :=
  match r with
  | .ok s => poolInvariant s
  | .error _ => True

/-- On success, the pool books show strictly less `available + locked` than
`totalLiquidity`. -/
def strictDeficitAfter
    (r : Except Err (PoolStats × LiquidityProvider × Ledger)) : Prop :=
  match r with
  | .ok t => t.1.availableLiquidity + t.1.lockedLiquidity < t.1.totalLiquidity
  | .error _ => True

/-- What a successful `processDeposit` must look like, relative to the
pre-state: it requires status `Created` with the deposit unpaid, pulls
`depositAmount` from the borrower, moves the full `totalAmount` from
available to locked liquidity and pays it to the merchant, and activates
the loan. Reverted runs assert nothing. -/
def depositOkSpec (l : LoanState) (pool : PoolStats) (L : Ledger)
    (r : Except Err (LoanState × PoolStats × Profile × Ledger)) : Prop :=
  match r with
  | .ok t =>
    l.status = EMIStatus.Created ∧ l.depositPaid = false ∧
    t.1.depositPaid = true ∧ t.1.status = EMIStatus.Active ∧
    t.2.1.lockedLiquidity = pool.lockedLiquidity + l.totalAmount ∧
    t.2.1.availableLiquidity + l.totalAmount = pool.availableLiquidity ∧
    t.2.1.totalLiquidity = pool.totalLiquidity ∧
    t.2.2.2.borrower + l.depositAmount = L.borrower ∧
    t.2.2.2.merchant = L.merchant + l.totalAmount
  | .error _ => True

/-- Status discipline of a `processDeposit` result: a successful run starts
from `Created` and ends `Active`; reverted runs assert nothing (no state
change by revert semantics). -/
def statusAfterDeposit (l : LoanState)
    (r : Except Err (LoanState × PoolStats × Profile × Ledger)) : Prop :=
  match r with
  | .ok t => l.status = EMIStatus.Created ∧ t.1.status = EMIStatus.Active
  | .error _ => True

/-- Status discipline of an installment-payment or early-payment result: a
successful run starts from `Active` and ends `Active` or `Completed`;
reverted runs assert nothing. -/
def statusAfterPayment (l : LoanState)
    (r : Except Err (LoanState × Profile × Ledger)) : Prop :=
  match r with
  | .ok t => l.status = EMIStatus.Active ∧
      (t.1.status = EMIStatus.Active ∨ t.1.status = EMIStatus.Completed)
  | .error _ => True

/-! ## Concrete fixtures for witnesses and counterexamples -/

/-- Token balances used by the concrete scenarios. -/
def demoLedger : Ledger :=
  { borrower := 100000, emi := 0, pool := 50000, merchant := 0, provider := 100000 }

/-- A pool satisfying the invariant with 5000 available. -/
def demoPool : PoolStats :=
  { totalLiquidity := 5000, availableLiquidity := 5000, lockedLiquidity := 0,
    totalEMIsFinanced := 0, totalInterestEarned := 0 }

/-- A pool with only 1000 available (less than the demo loan's 1200). -/
def poorPool : PoolStats :=
  { totalLiquidity := 1000, availableLiquidity := 1000, lockedLiquidity := 0,
    totalEMIsFinanced := 0, totalInterestEarned := 0 }

/-- An inactive demo liquidity provider. -/
def demoProvider : LiquidityProvider :=
  { amount := 0, timestamp := 0, interestEarned := 0, isActive := false }

/-- A borrower profile as created by `createProfile` and then registered
for one EMI by `addEMI` (score 650, one active EMI). -/
def demoProfile : Profile :=
  { initialProfile 7 with totalEMIs := 1, activeEMIs := 1 }

/-- The demo loan: 1200 over 12 months at 1200 bps with no deposit, created
at time 0 (so `remainingAmount = 1344`, `monthlyAmount = 112`). -/
def demoLoan : LoanState := mkLoan 1200 12 1200 0 0

/-- A 1-month variant of the demo loan (`remainingAmount = 1212`). -/
def demoLoanOne : LoanState := mkLoan 1200 1 1200 0 0

/-- The loan component `processDeposit` produces from `demoLoan`. -/
def demoActiveLoan : LoanState :=
  { demoLoan with
    depositPaid := true, status := EMIStatus.Active,
    paymentHistory :=
      [{ amount := 0, timestamp := 0, paymentType := PaymentType.Deposit }] }

/-- `demoActiveLoan` after the terminal `Completed` transition. -/
def demoCompletedLoan : LoanState :=
  { demoActiveLoan with status := EMIStatus.Completed }

/-- Pool stats before the interest claim of the C1 counterexample. -/
def poolBeforeClaim : PoolStats :=
  { totalLiquidity := 2000, availableLiquidity := 2000, lockedLiquidity := 0,
    totalEMIsFinanced := 0, totalInterestEarned := 0 }

/-- A provider with 50 of settled interest and no pending interest at
time 5. -/
def providerBeforeClaim : LiquidityProvider :=
  { amount := 1000, timestamp := 5, interestEarned := 50, isActive := true }

/-- Pool stats after that interest claim: available dropped by 50 while
total and locked are untouched. -/
def poolAfterClaim : PoolStats :=
  { totalLiquidity := 2000, availableLiquidity := 1950, lockedLiquidity := 0,
    totalEMIsFinanced := 0, totalInterestEarned := 0 }

/-- The provider after that claim. -/
def providerAfterClaim : LiquidityProvider :=
  { amount := 1000, timestamp := 5, interestEarned := 0, isActive := true }

/-- The ledger after that claim: 50 moved pool → provider. -/
def ledgerAfterClaim : Ledger := { demoLedger with pool := 49950, provider := 100050 }

/-- A pool with no locked liquidity, for the repayment underflow. -/
def lockedZeroPool : PoolStats :=
  { totalLiquidity := 100, availableLiquidity := 100, lockedLiquidity := 0,
    totalEMIsFinanced := 0, totalInterestEarned := 0 }

/-- A pool with 200 locked, for the successful repayment case. -/
def lockedPool : PoolStats :=
  { totalLiquidity := 300, availableLiquidity := 100, lockedLiquidity := 200,
    totalEMIsFinanced := 0, totalInterestEarned := 0 }

/-- A ledger rich enough for a successful minimum-size `addLiquidity`. -/
def richLedger : Ledger :=
  { borrower := 10 ^ 12, emi := 0, pool := 10 ^ 12, merchant := 0,
    provider := 10 ^ 12 }

/-! ## Helper lemmas -/

theorem setCreditScore_inRange (p : Profile) (n : Nat) :
    scoreInRange (setCreditScore p n) := by
  simp only [scoreInRange, setCreditScore, MIN_CREDIT_SCORE, MAX_CREDIT_SCORE]
  split
  · omega
  · split <;> omega

theorem applyProfileOp_inRange (p : Profile) (op : ProfileOp)
    (h : scoreInRange p) : scoreInRange (applyProfileOp p op) := by
  cases op with
  | recordPayment t =>
    cases t with
    | Deposit => exact h
    | Installment =>
      simp only [applyProfileOp, recordPayment, updateCreditScoreForPayment,
        if_true]
      split
      · exact setCreditScore_inRange _ _
      · exact h
    | EarlyPayment =>
      simp only [applyProfileOp, recordPayment, updateCreditScoreForPayment]
      split
      · exact setCreditScore_inRange _ _
      · exact h
    | LateFee => exact h
  | completeEMI =>
    cases hc : completeEMI p with
    | error e => simp only [applyProfileOp, hc]; exact h
    | ok q =>
      simp only [applyProfileOp, hc]
      unfold completeEMI at hc
      split at hc
      · exact absurd hc (by simp)
      · cases hc; exact setCreditScore_inRange _ _
  | recordDefault =>
    cases hc : recordDefault p with
    | error e => simp only [applyProfileOp, hc]; exact h
    | ok q =>
      simp only [applyProfileOp, hc]
      unfold recordDefault at hc
      split at hc
      · exact absurd hc (by simp)
      · cases hc; exact setCreditScore_inRange _ _
  | recordLatePayment => exact setCreditScore_inRange _ _
  | updateCreditScore n => exact setCreditScore_inRange _ _

theorem foldl_profileOps_inRange (ops : List ProfileOp) (p : Profile)
    (h : scoreInRange p) : scoreInRange (ops.foldl applyProfileOp p) := by
  induction ops generalizing p with
  | nil => exact h
  | cons op rest ih => exact ih _ (applyProfileOp_inRange p op h)

theorem checkedSub_eq_some {a b c : Nat} :
    checkedSub a b = some c ↔ b ≤ a ∧ c = a - b := by
  unfold checkedSub
  split <;> simp_all [eq_comm]

theorem checkedSub_eq_none {a b : Nat} :
    checkedSub a b = none ↔ a < b := by
  unfold checkedSub
  split <;> simp_all

theorem transferTok_eq_some {L : Ledger} {src dst : Addr} {amount : Nat}
    {L' : Ledger} :
    transferTok L src dst amount = some L' ↔
    amount ≤ L.get src ∧
      L' = (L.set src (L.get src - amount)).set dst (L.get dst + amount) := by
  unfold transferTok
  split <;> simp_all [eq_comm]

theorem sumEarly_append (h : List PaymentRecord) (r : PaymentRecord) :
    sumEarly (h ++ [r]) = sumEarly h +
      (if r.paymentType = PaymentType.EarlyPayment then r.amount else 0) := by
  induction h with
  | nil => simp [sumEarly]
  | cons x xs ih => simp [sumEarly, ih, Nat.add_assoc]

theorem sumPaid_of_no_paid (li : List Installment)
    (h : ∀ inst ∈ li, inst.status ≠ InstallmentStatus.Paid) :
    sumPaid li = 0 := by
  induction li with
  | nil => rfl
  | cons x xs ih =>
    have hx : x.status ≠ InstallmentStatus.Paid := h x (by simp)
    simp only [sumPaid, if_neg hx, Nat.zero_add]
    exact ih fun inst hm => h inst (by simp [hm])

theorem listGet?Set_self {α : Type} (l : List α) (k : Nat) (v : α)
    (h : k < l.length) : (l.set k v).get? k = some v := by
  induction l generalizing k with
  | nil => simp at h
  | cons x xs ih =>
    cases k with
    | zero => rfl
    | succ k => simpa using ih k (by simpa using h)

theorem listGet?Set_other {α : Type} (l : List α) (k j : Nat) (v : α)
    (h : j ≠ k) : (l.set k v).get? j = l.get? j := by
  induction l generalizing k j with
  | nil => simp
  | cons x xs ih =>
    cases k with
    | zero =>
      cases j with
      | zero => exact absurd rfl h
      | succ j => simp [List.set]
    | succ k =>
      cases j with
      | zero => simp [List.set]
      | succ j =>
        simpa [List.set] using ih k j (by omega)

theorem sumPaid_set (li : List Installment) (k : Nat) (inst : Installment)
    (d : Nat) (hget : li.get? k = some inst)
    (hns : inst.status ≠ InstallmentStatus.Paid) :
    sumPaid (li.set k
        { inst with status := InstallmentStatus.Paid, paidDate := d })
      = sumPaid li + inst.amount := by
  induction li generalizing k with
  | nil => simp at hget
  | cons x xs ih =>
    cases k with
    | zero =>
      have hx : x = inst := by simpa using hget
      subst hx
      simp [List.set, sumPaid, hns]
      omega
    | succ k =>
      simp only [List.set, sumPaid]
      rw [ih k (by simpa using hget)]
      omega

theorem adjustAmountsFrom_length (i pc term a : Nat) (li : List Installment) :
    (adjustAmountsFrom i pc term a li).length = li.length := by
  induction li generalizing i with
  | nil => rfl
  | cons x xs ih => simp [adjustAmountsFrom, ih]

theorem adjustAmountsFrom_get? (i pc term a : Nat) (li : List Installment)
    (j : Nat) :
    (adjustAmountsFrom i pc term a li).get? j =
      (li.get? j).map (fun inst =>
        if pc ≤ i + j ∧ i + j < term then { inst with amount := a }
        else inst) := by
  induction li generalizing i j with
  | nil => simp [adjustAmountsFrom]
  | cons x xs ih =>
    cases j with
    | zero => simp [adjustAmountsFrom]
    | succ j =>
      have he : i + 1 + j = i + (j + 1) := by omega
      simpa [adjustAmountsFrom, he] using ih (i + 1) j

theorem sumPaid_adjustAmountsFrom (pc term a : Nat) (li : List Installment)
    (i : Nat)
    (h : ∀ j inst, li.get? j = some inst →
      inst.status = InstallmentStatus.Paid → i + j < pc) :
    sumPaid (adjustAmountsFrom i pc term a li) = sumPaid li := by
  induction li generalizing i with
  | nil => rfl
  | cons x xs ih =>
    simp only [adjustAmountsFrom, sumPaid]
    have ht : sumPaid (adjustAmountsFrom (i + 1) pc term a xs) = sumPaid xs :=
      ih (i + 1) (fun j inst hj hp => by
        have := h (j + 1) inst (by simpa using hj) hp
        omega)
    rw [ht]
    by_cases hp : x.status = InstallmentStatus.Paid
    · have hip : i < pc := by simpa using h 0 x rfl hp
      rw [if_neg (by omega : ¬ (pc ≤ i ∧ i < term))]
    · split
      · simp [hp]
      · rfl

theorem transferToMerchant_ok {s : PoolStats} {L : Ledger} {amount : Nat}
    {s' : PoolStats} {L' : Ledger}
    (h : transferToMerchant s L amount = Except.ok (s', L')) :
    amount ≤ s.availableLiquidity ∧
    s' = { s with
           availableLiquidity := s.availableLiquidity - amount,
           lockedLiquidity := s.lockedLiquidity + amount,
           totalEMIsFinanced := s.totalEMIsFinanced + 1 } ∧
    L' = (L.set .pool (L.get .pool - amount)).set .merchant
           (L.get .merchant + amount) := by
  simp only [transferToMerchant] at h
  split at h
  · exact absurd h (by simp)
  · rename_i hge
    split at h
    · exact absurd h (by simp)
    · rename_i L₂ htok
      rw [transferTok_eq_some] at htok
      cases h
      exact ⟨by omega, rfl, htok.2⟩

theorem mkLoan_LoanInv (totalAmount termMonths interestRate depositAmount
    now : Nat) :
    LoanInv (mkLoan totalAmount termMonths interestRate depositAmount now) := by
  refine ⟨by simp [mkLoan], by simp [mkLoan], ?_, ?_⟩
  · intro j inst hj
    simp only [mkLoan, List.get?_map] at hj
    cases hr : (List.range termMonths).get? j with
    | none => rw [hr] at hj; exact absurd hj (by simp)
    | some i =>
      rw [hr] at hj
      have : inst.status = InstallmentStatus.Pending := by
        cases hj; rfl
      simp [mkLoan, this]
  · have hz : sumPaid ((List.range termMonths).map fun i =>
        ({ installmentNumber := i + 1, dueDate := now + (i + 1) * (30 * 86400),
           amount := (totalAmount - depositAmount +
             (totalAmount - depositAmount) * interestRate * termMonths /
               (10000 * 12)) / termMonths,
           status := InstallmentStatus.Pending, paidDate := 0 } : Installment)) = 0 := by
      apply sumPaid_of_no_paid
      intro inst hm
      obtain ⟨i, _, rfl⟩ := List.mem_map.mp hm
      simp
    simp [mkLoan, sumEarly, loanDebt, hz]

theorem LoanInv_processDeposit {l l' : LoanState} {pool pool' : PoolStats}
    {prof prof' : Profile} {L L' : Ledger} {now : Nat}
    (hok : processDeposit l pool prof L now = Except.ok (l', pool', prof', L'))
    (h : LoanInv l) : LoanInv l' := by
  obtain ⟨hlen, hpc, hstat, hsum⟩ := h
  simp only [processDeposit] at hok
  split at hok
  · exact absurd hok (by simp)
  · split at hok
    · exact absurd hok (by simp)
    · split at hok
      · exact absurd hok (by simp)
      · split at hok
        · exact absurd hok (by simp)
        · cases hok
          refine ⟨hlen, hpc, hstat, ?_⟩
          rw [sumEarly_append]
          simp only [loanDebt] at hsum ⊢
          simpa using hsum

theorem LoanInv_processInstallmentPayment {l l' : LoanState}
    {prof prof' : Profile} {L L' : Ledger} {n now : Nat}
    (hok : processInstallmentPayment l prof L n now = Except.ok (l', prof', L'))
    (h : LoanInv l) : LoanInv l' := by
  obtain ⟨hlen, hpc, hstat, hsum⟩ := h
  simp only [processInstallmentPayment] at hok
  split at hok
  · exact absurd hok (by simp)
  split at hok
  · exact absurd hok (by simp)
  split at hok
  · exact absurd hok (by simp)
  split at hok
  · exact absurd hok (by simp)
  split at hok
  · exact absurd hok (by simp)
  split at hok
  · exact absurd hok (by simp)
  split at hok
  · exact absurd hok (by simp)
  split at hok
  · exact absurd hok (by simp)
  rename_i hdp hact hrange hord _oi inst hinst hpend _ol L₁ htok _or rem hrem
  have hn : n = l.paymentsCompleted + 1 := not_ne_iff.mp hord
  have h1n : 1 ≤ n ∧ n ≤ l.termMonths := by omega
  have hpend' : inst.status = InstallmentStatus.Pending := not_ne_iff.mp hpend
  have hsub := checkedSub_eq_some.mp hrem
  have hidx : n - 1 = l.paymentsCompleted := by omega
  have hlt : n - 1 < l.installments.length := by omega
  have hnp : inst.status ≠ InstallmentStatus.Paid := by simp [hpend']
  split at hok
  · exact absurd hok (by simp)
  rename_i _on l₃ L₂ heq
  cases hok
  split at heq
  · split at heq
    · exact absurd heq (by simp)
    · cases heq
      refine ⟨by simp [hlen], by dsimp only; omega, ?_, ?_⟩
      · dsimp only
        intro j inst₂ hj
        by_cases hje : j = n - 1
        · subst hje
          rw [listGet?Set_self _ _ _ hlt] at hj
          cases hj
          simp
          omega
        · rw [listGet?Set_other _ _ _ _ hje] at hj
          have hs := hstat j inst₂ hj
          constructor
          · intro hp
            have := hs.mp hp
            omega
          · intro hlt2
            exact hs.mpr (by omega)
      · dsimp only
        rw [sumPaid_set l.installments (n - 1) inst now hinst hnp, sumEarly_append]
        change _ = loanDebt l
        simp
        omega
  · split at heq
    · exact absurd heq (by simp)
    · cases heq
      refine ⟨by simp [hlen], by dsimp only; omega, ?_, ?_⟩
      · dsimp only
        intro j inst₂ hj
        by_cases hje : j = n - 1
        · subst hje
          rw [listGet?Set_self _ _ _ hlt] at hj
          cases hj
          simp
          omega
        · rw [listGet?Set_other _ _ _ _ hje] at hj
          have hs := hstat j inst₂ hj
          constructor
          · intro hp
            have := hs.mp hp
            omega
          · intro hlt2
            exact hs.mpr (by omega)
      · dsimp only
        rw [sumPaid_set l.installments (n - 1) inst now hinst hnp, sumEarly_append]
        change _ = loanDebt l
        simp
        omega

theorem LoanInv_makeEarlyPayment {l l' : LoanState} {prof prof' : Profile} {L L' : Ledger}
    {amount now : Nat}
    (hok : makeEarlyPayment l prof L amount now = Except.ok (l', prof', L'))
    (h : LoanInv l) : LoanInv l' := by
  obtain ⟨hlen, hpc, hstat, hsum⟩ := h
  simp only [makeEarlyPayment] at hok
  split at hok
  · exact absurd hok (by simp)
  split at hok
  · exact absurd hok (by simp)
  split at hok
  · exact absurd hok (by simp)
  split at hok
  · exact absurd hok (by simp)
  split at hok
  · exact absurd hok (by simp)
  rename_i hdp hact ham hge _ol L₁ htok
  split at hok
  · exact absurd hok (by simp)
  rename_i _oa l₂ hadj
  simp only [adjustInstallmentsForEarlyPayment] at hadj
  split at hadj
  · cases hadj
    dsimp only at hok
    split at hok
    · split at hok
      · exact absurd hok (by simp)
      · cases hok
        refine ⟨by simpa using hlen, by simpa using hpc, ?_, ?_⟩
        · dsimp only
          intro j inst₂ hj
          exact hstat j inst₂ hj
        · dsimp only
          rw [sumEarly_append]
          change _ = loanDebt l
          simp
          omega
    · cases hok
      refine ⟨by simpa using hlen, by simpa using hpc, ?_, ?_⟩
      · dsimp only
        intro j inst₂ hj
        exact hstat j inst₂ hj
      · dsimp only
        rw [sumEarly_append]
        change _ = loanDebt l
        simp
        omega
  · split at hadj
    · exact absurd hadj (by simp)
    · cases hadj
      dsimp only at hok
      split at hok
      · split at hok
        · exact absurd hok (by simp)
        · cases hok
          refine ⟨by simp [adjustAmountsFrom_length, hlen], by simpa using hpc, ?_, ?_⟩
          · dsimp only
            intro j inst₂ hj
            rw [adjustAmountsFrom_get?] at hj
            cases hq : l.installments.get? j with
            | none => rw [hq] at hj; exact absurd hj (by simp)
            | some inst₀ =>
              rw [hq] at hj
              simp only [Option.map_some'] at hj
              have hs := hstat j inst₀ hq
              split at hj <;> cases hj <;> simpa using hs
          · dsimp only
            rw [sumPaid_adjustAmountsFrom _ _ _ _ _ (fun j inst₀ hq hp => by
              have := (hstat j inst₀ hq).mp hp
              omega), sumEarly_append]
            change _ = loanDebt l
            simp
            omega
      · cases hok
        refine ⟨by simp [adjustAmountsFrom_length, hlen], by simpa using hpc, ?_, ?_⟩
        · dsimp only
          intro j inst₂ hj
          rw [adjustAmountsFrom_get?] at hj
          cases hq : l.installments.get? j with
          | none => rw [hq] at hj; exact absurd hj (by simp)
          | some inst₀ =>
            rw [hq] at hj
            simp only [Option.map_some'] at hj
            have hs := hstat j inst₀ hq
            split at hj <;> cases hj <;> simpa using hs
        · dsimp only
          rw [sumPaid_adjustAmountsFrom _ _ _ _ _ (fun j inst₀ hq hp => by
            have := (hstat j inst₀ hq).mp hp
            omega), sumEarly_append]
          change _ = loanDebt l
          simp
          omega

theorem processDeposit_status {l l' : LoanState} {pool pool' : PoolStats}
    {prof prof' : Profile} {L L' : Ledger} {now : Nat}
    (hok : processDeposit l pool prof L now = Except.ok (l', pool', prof', L')) :
    l.status = EMIStatus.Created ∧ l'.status = EMIStatus.Active := by
  simp only [processDeposit] at hok
  split at hok
  · exact absurd hok (by simp)
  split at hok
  · exact absurd hok (by simp)
  split at hok
  · exact absurd hok (by simp)
  split at hok
  · exact absurd hok (by simp)
  rename_i hdp hst _osc L₁ htok _res pool₂ L₂ htm
  cases hok
  exact ⟨by simpa using hst, rfl⟩

theorem processInstallmentPayment_status {l l' : LoanState}
    {prof prof' : Profile} {L L' : Ledger} {n now : Nat}
    (hok : processInstallmentPayment l prof L n now = Except.ok (l', prof', L')) :
    l.status = EMIStatus.Active ∧
      (l'.status = EMIStatus.Active ∨ l'.status = EMIStatus.Completed) := by
  simp only [processInstallmentPayment] at hok
  split at hok
  · exact absurd hok (by simp)
  split at hok
  · exact absurd hok (by simp)
  split at hok
  · exact absurd hok (by simp)
  split at hok
  · exact absurd hok (by simp)
  split at hok
  · exact absurd hok (by simp)
  split at hok
  · exact absurd hok (by simp)
  split at hok
  · exact absurd hok (by simp)
  split at hok
  · exact absurd hok (by simp)
  rename_i hdp hact hrange hord _oi inst hinst hpend _ol L₁ htok _or rem hrem
  have hA : l.status = EMIStatus.Active := not_ne_iff.mp hact
  split at hok
  · exact absurd hok (by simp)
  rename_i _on l₃ L₂ heq
  cases hok
  split at heq
  · split at heq
    · exact absurd heq (by simp)
    · cases heq
      exact ⟨hA, Or.inl (by simpa using hA)⟩
  · split at heq
    · exact absurd heq (by simp)
    · cases heq
      exact ⟨hA, Or.inr rfl⟩

theorem makeEarlyPayment_status {l l' : LoanState} {prof prof' : Profile}
    {L L' : Ledger} {amount now : Nat}
    (hok : makeEarlyPayment l prof L amount now = Except.ok (l', prof', L')) :
    l.status = EMIStatus.Active ∧
      (l'.status = EMIStatus.Active ∨ l'.status = EMIStatus.Completed) := by
  simp only [makeEarlyPayment] at hok
  split at hok
  · exact absurd hok (by simp)
  split at hok
  · exact absurd hok (by simp)
  split at hok
  · exact absurd hok (by simp)
  split at hok
  · exact absurd hok (by simp)
  split at hok
  · exact absurd hok (by simp)
  rename_i hdp hact ham hge _ol L₁ htok
  have hA : l.status = EMIStatus.Active := not_ne_iff.mp hact
  split at hok
  · exact absurd hok (by simp)
  rename_i _oa l₂ hadj
  simp only [adjustInstallmentsForEarlyPayment] at hadj
  split at hadj
  · cases hadj
    dsimp only at hok
    split at hok
    · split at hok
      · exact absurd hok (by simp)
      · cases hok
        exact ⟨hA, Or.inr rfl⟩
    · cases hok
      exact ⟨hA, Or.inl (by simpa using hA)⟩
  · split at hadj
    · exact absurd hadj (by simp)
    · cases hadj
      dsimp only at hok
      split at hok
      · split at hok
        · exact absurd hok (by simp)
        · cases hok
          exact ⟨hA, Or.inr rfl⟩
      · cases hok
        exact ⟨hA, Or.inl (by simpa using hA)⟩

theorem loanInv_of_reachable {l : LoanState} (h : ReachableLoan l) :
    LoanInv l := by
  induction h with
  | created totalAmount termMonths interestRate depositAmount now hterm hdep =>
    exact mkLoan_LoanInv totalAmount termMonths interestRate depositAmount now
  | step _ hstep ih =>
    cases hstep with
    | deposit hok => exact LoanInv_processDeposit hok ih
    | installment hok => exact LoanInv_processInstallmentPayment hok ih
    | early hok => exact LoanInv_makeEarlyPayment hok ih

/-- Claim C6 (confirmed): starting from a freshly created profile
(score 650), the credit score stays within `[300, 850]` after any sequence
of `recordPayment`, `completeEMI`, `recordDefault`, `recordLatePayment` and
`updateCreditScore` operations (every prefix of a sequence is itself a
sequence, so this covers the state after each operation; reverting
operations leave the profile unchanged). -/
theorem creditScore_bounds_any_sequence (now : Nat) (ops : List ProfileOp) :
    MIN_CREDIT_SCORE ≤ (ops.foldl applyProfileOp (initialProfile now)).creditScore ∧
    (ops.foldl applyProfileOp (initialProfile now)).creditScore ≤ MAX_CREDIT_SCORE :=
  foldl_profileOps_inRange ops (initialProfile now)
    (by constructor <;> simp [initialProfile, INITIAL_CREDIT_SCORE,
          MIN_CREDIT_SCORE, MAX_CREDIT_SCORE])

/-- Claim C9, amended (the code does not clamp): `receiveEMIPayment amount`
succeeds iff `amount ≤ lockedLiquidity`, in which case it moves `amount`
from locked to available and credits `totalInterestEarned` by
`amount / 100`; when `amount` exceeds `lockedLiquidity` the checked
subtraction underflows and the call reverts (no state change), rather than
clamping the locked balance at zero. -/
theorem receiveEMIPayment_spec (s : PoolStats) (amount : Nat) :
    (amount ≤ s.lockedLiquidity →
      receiveEMIPayment s amount = Except.ok
        { s with
          lockedLiquidity := s.lockedLiquidity - amount,
          availableLiquidity := s.availableLiquidity + amount,
          totalInterestEarned := s.totalInterestEarned + amount / 100 }) ∧
    (s.lockedLiquidity < amount →
      receiveEMIPayment s amount = Except.error Err.arithmeticUnderflow) := by
  constructor <;> intro h
  · simp [receiveEMIPayment, checkedSub, h]
  · simp [receiveEMIPayment, checkedSub, Nat.not_le.mpr h]

/-- Witness for `receiveEMIPayment_spec`: both branches at concrete pools. -/
theorem receiveEMIPayment_spec_witness :
    receiveEMIPayment lockedPool 150 = Except.ok
      { totalLiquidity := 300, availableLiquidity := 250, lockedLiquidity := 50,
        totalEMIsFinanced := 0, totalInterestEarned := 1 } ∧
    receiveEMIPayment lockedZeroPool 100 = Except.error Err.arithmeticUnderflow :=
  ⟨(receiveEMIPayment_spec lockedPool 150).1 (by decide),
   (receiveEMIPayment_spec lockedZeroPool 100).2 (by decide)⟩

/-- Claim C9 counterexample: with no locked liquidity, a repayment of 100
reverts (arithmetic underflow) instead of never failing with the locked
balance clamped at zero. -/
theorem receiveEMIPayment_not_clamped :
    receiveEMIPayment lockedZeroPool 100 = Except.error Err.arithmeticUnderflow :=
  rfl

/-- Claim C10 (confirmed): a user whose profile was never created reads as
the zero profile (score 0, not 650), so `verifyEligibility` rejects with
reason "Credit score too low" and `maxAmount = 0`; the 650 initial score
appears only once `createProfile` has run. -/
theorem uncreated_profile_eligibility (store : ProfileStore) (user now : Nat)
    (h : List.lookup user store = none) :
    getUserProfile store user = emptyProfile ∧
    verifyEligibility store user =
      { isEligible := false, creditScore := 0, maxAmount := 0,
        reason := "Credit score too low" } ∧
    createProfile store user now = Except.ok ((user, initialProfile now) :: store) ∧
    (getUserProfile ((user, initialProfile now) :: store) user).creditScore =
      INITIAL_CREDIT_SCORE := by
  have hp : getUserProfile store user = emptyProfile := by
    simp [getUserProfile, h]
  refine ⟨hp, ?_, ?_, ?_⟩
  · simp [verifyEligibility, hp, emptyProfile, MANAGER_MIN_CREDIT_SCORE]
  · simp [createProfile, hp, emptyProfile]
  · simp [getUserProfile, List.lookup, initialProfile]

/-- Witness for `uncreated_profile_eligibility` at the empty store. -/
theorem uncreated_profile_eligibility_witness :
    getUserProfile ([] : ProfileStore) 1 = emptyProfile ∧
    verifyEligibility ([] : ProfileStore) 1 =
      { isEligible := false, creditScore := 0, maxAmount := 0,
        reason := "Credit score too low" } ∧
    createProfile ([] : ProfileStore) 1 100 = Except.ok [(1, initialProfile 100)] ∧
    (getUserProfile [(1, initialProfile 100)] 1).creditScore =
      INITIAL_CREDIT_SCORE :=
  uncreated_profile_eligibility [] 1 100 rfl

/-- Claim C1 counterexample: a successful `claimInterest` pays 50 of
settled interest out of `availableLiquidity` without touching
`totalLiquidity` or `lockedLiquidity`, so a pool satisfying
`available + locked = total` stops satisfying it. -/
theorem claimInterest_breaks_pool_invariant :
    poolInvariant poolBeforeClaim ∧
    claimInterest poolBeforeClaim providerBeforeClaim demoLedger 5 =
      Except.ok (poolAfterClaim, providerAfterClaim, ledgerAfterClaim) ∧
    ¬ poolInvariant poolAfterClaim :=
  ⟨by decide, rfl, by decide⟩

/-- Claim C2: evidence of the double subtraction in
`_adjustInstallmentsForEarlyPayment`. For the demo loan
(`remainingAmount = 1344` after activation), an early payment of 100
leaves `remainingAmount = 1244` but re-amortizes every installment to
`(1244 - 100) / 12 = 95`, while the claimed formula gives
`1244 / (12 - 0) = 103`; and paying off the full 1344 reverts with an
arithmetic underflow (so the early-payment completion path is
unreachable). -/
theorem earlyPayment_double_subtraction :
    (Except.bind (processDeposit demoLoan demoPool demoProfile demoLedger 0)
      (fun r => Except.map
        (fun q => (q.1.remainingAmount, q.1.installments.map (fun i => i.amount)))
        (makeEarlyPayment r.1 r.2.2.1 r.2.2.2 100 0)))
      = Except.ok (1244, List.replicate 12 95) ∧
    (Except.bind (processDeposit demoLoan demoPool demoProfile demoLedger 0)
      (fun r => makeEarlyPayment r.1 r.2.2.1 r.2.2.2 1344 0))
      = Except.error Err.arithmeticUnderflow ∧
    1244 / (12 - 0) = 103 :=
  ⟨rfl, rfl, rfl⟩

/-- Claim C4: evidence that a late installment payment boosts the score.
Installment 1 of the demo loan is due at 2592000 and is paid 4 days later
(grace is 3 days), so the 5% late fee is charged (117 = 112 + 5), yet the
borrower's credit score moves 650 → 652 (+2 boost): `recordPayment` calls
the score update with the literal `true` for `onTime`, so the −10 late
penalty branch is unreachable. -/
theorem latePayment_boosts_score :
    demoProfile.creditScore = 650 ∧
    (demoLoan.installments.map (fun i => i.dueDate)).get? 0 = some 2592000 ∧
    2592000 + GRACE_PERIOD < 2937600 ∧
    (Except.bind (processDeposit demoLoan demoPool demoProfile demoLedger 0)
      (fun r => Except.map
        (fun q => (q.2.1.creditScore, q.1.paymentHistory.map (fun h => h.amount)))
        (processInstallmentPayment r.1 r.2.2.1 r.2.2.2 1 2937600)))
      = Except.ok (652, [0, 117]) :=
  ⟨rfl, rfl, by decide, rfl⟩

/-- Claim C5 counterexample: on an active demo loan with
`paymentsCompleted = 0`, requesting installment 0 (which is not
`paymentsCompleted + 1`) fails with the range-validation error
("Invalid installment number"), not the out-of-order error
("Pay installments in order"). -/
theorem invalid_number_error_not_out_of_order :
    (Except.bind (processDeposit demoLoan demoPool demoProfile demoLedger 0)
      (fun r => processInstallmentPayment r.1 r.2.2.1 r.2.2.2 0 0))
      = Except.error Err.invalidInstallmentNumber ∧
    Err.invalidInstallmentNumber ≠ Err.payInstallmentsInOrder ∧
    (0 : Nat) ≠ demoActiveLoan.paymentsCompleted + 1 :=
  ⟨rfl, by decide, by decide⟩

/-- Claim C7 counterexample: a 1-month loan driven to `Completed` by its
deposit and final installment is then moved to `Defaulted` by
`markAsDefaulted`, so `Completed` is not terminal. -/
theorem completed_loan_redefaulted :
    (Except.bind (processDeposit demoLoanOne demoPool demoProfile demoLedger 0)
      (fun r => Except.bind (processInstallmentPayment r.1 r.2.2.1 r.2.2.2 1 0)
        (fun q => Except.map (fun w => (q.1.status, w.1.status))
          (markAsDefaulted q.1 q.2.1))))
      = Except.ok (EMIStatus.Completed, EMIStatus.Defaulted) :=
  rfl

/-- Claim C7, amended: the user-facing operations respect terminal states —
on a `Completed`, `Defaulted` or `Cancelled` loan, `processDeposit`,
`processInstallmentPayment` and `makeEarlyPayment` all revert (leaving all
state unchanged) — and on any loan their successes only drive
`Created → Active` (deposit) and `Active → Active/Completed` (payments),
so `Created → Active → Completed` is the only path they drive; but
`markAsDefaulted` carries no status guard: whenever its profile update
succeeds it sets the status to `Defaulted` from any current status,
including `Completed` and `Cancelled`. -/
theorem terminal_status_spec (l : LoanState) (pool : PoolStats)
    (prof : Profile) (L : Ledger) (n amount now : Nat) :
    (l.status = EMIStatus.Completed ∨ l.status = EMIStatus.Defaulted ∨
        l.status = EMIStatus.Cancelled →
      processDeposit l pool prof L now =
        Except.error (if l.depositPaid = true then Err.depositAlreadyPaid
          else Err.invalidStatusForDeposit) ∧
      processInstallmentPayment l prof L n now =
        Except.error (if l.depositPaid = true then Err.emiNotActive
          else Err.depositNotPaid) ∧
      makeEarlyPayment l prof L amount now =
        Except.error (if l.depositPaid = true then Err.emiNotActive
          else Err.depositNotPaid)) ∧
    statusAfterDeposit l (processDeposit l pool prof L now) ∧
    statusAfterPayment l (processInstallmentPayment l prof L n now) ∧
    statusAfterPayment l (makeEarlyPayment l prof L amount now) ∧
    markAsDefaulted l prof =
      Except.map (fun q => ({ l with status := EMIStatus.Defaulted }, q))
        (recordDefault prof) := by
  refine ⟨?_, ?_, ?_, ?_, ?_⟩
  · intro h
    have hs1 : l.status ≠ EMIStatus.Created := by
      rcases h with h | h | h <;> simp [h]
    have hs2 : l.status ≠ EMIStatus.Active := by
      rcases h with h | h | h <;> simp [h]
    refine ⟨?_, ?_, ?_⟩
    · cases hdp : l.depositPaid <;> simp [processDeposit, hdp, hs1]
    · cases hdp : l.depositPaid <;> simp [processInstallmentPayment, hdp, hs2]
    · cases hdp : l.depositPaid <;> simp [makeEarlyPayment, hdp, hs2]
  · cases hres : processDeposit l pool prof L now with
    | error e => trivial
    | ok t =>
      obtain ⟨l', pool', prof', L'⟩ := t
      exact processDeposit_status hres
  · cases hres : processInstallmentPayment l prof L n now with
    | error e => trivial
    | ok t =>
      obtain ⟨l', prof', L'⟩ := t
      exact processInstallmentPayment_status hres
  · cases hres : makeEarlyPayment l prof L amount now with
    | error e => trivial
    | ok t =>
      obtain ⟨l', prof', L'⟩ := t
      exact makeEarlyPayment_status hres
  · cases hr : recordDefault prof <;> simp [markAsDefaulted, hr, Except.map]

/-- Witness for `terminal_status_spec`: the three reverts and the
`markAsDefaulted` shape on a concrete `Completed` loan, plus non-vacuous
status transitions — a successful deposit on the `Created` demo loan and a
successful first installment on the active demo loan. -/
theorem terminal_status_spec_witness :
    processDeposit demoCompletedLoan demoPool demoProfile demoLedger 0 =
      Except.error Err.depositAlreadyPaid ∧
    processInstallmentPayment demoCompletedLoan demoProfile demoLedger 1 0 =
      Except.error Err.emiNotActive ∧
    makeEarlyPayment demoCompletedLoan demoProfile demoLedger 50 0 =
      Except.error Err.emiNotActive ∧
    statusAfterDeposit demoLoan
      (processDeposit demoLoan demoPool demoProfile demoLedger 0) ∧
    statusAfterPayment demoActiveLoan
      (processInstallmentPayment demoActiveLoan demoProfile demoLedger 1 0) ∧
    markAsDefaulted demoCompletedLoan demoProfile =
      Except.map
        (fun q => ({ demoCompletedLoan with status := EMIStatus.Defaulted }, q))
        (recordDefault demoProfile) := by
  have A := terminal_status_spec demoCompletedLoan demoPool demoProfile
    demoLedger 1 50 0
  have B := terminal_status_spec demoLoan demoPool demoProfile demoLedger 1 50 0
  have C := terminal_status_spec demoActiveLoan demoPool demoProfile
    demoLedger 1 50 0
  have hA := A.1 (Or.inl rfl)
  exact ⟨hA.1, hA.2.1, hA.2.2, B.2.1, C.2.2.1, A.2.2.2.2⟩

/-- Claim C5, amended: on an `Active`, deposit-paid loan, every installment
number `n ≠ paymentsCompleted + 1` reverts (no state change, by revert
semantics); the error is the out-of-order one exactly when `n` is within
`1..termMonths`, and the range-validation error ("Invalid installment
number") when `n = 0` or `n > termMonths`. -/
theorem out_of_order_payment_spec (l : LoanState) (prof : Profile)
    (L : Ledger) (n now : Nat) (hdep : l.depositPaid = true)
    (hact : l.status = EMIStatus.Active)
    (hne : n ≠ l.paymentsCompleted + 1) :
    (1 ≤ n → n ≤ l.termMonths →
      processInstallmentPayment l prof L n now =
        Except.error Err.payInstallmentsInOrder) ∧
    ((n = 0 ∨ l.termMonths < n) →
      processInstallmentPayment l prof L n now =
        Except.error Err.invalidInstallmentNumber) := by
  constructor
  · intro h1 h2
    have hr : ¬ (n = 0 ∨ l.termMonths < n) := by omega
    simp [processInstallmentPayment, hdep, hact, hr, hne]
  · intro h
    simp [processInstallmentPayment, hdep, hact, h]

/-- Witness for `out_of_order_payment_spec`: both error kinds on the
active demo loan (`paymentsCompleted = 0`, `termMonths = 12`). -/
theorem out_of_order_payment_spec_witness :
    processInstallmentPayment demoActiveLoan demoProfile demoLedger 5 0 =
      Except.error Err.payInstallmentsInOrder ∧
    processInstallmentPayment demoActiveLoan demoProfile demoLedger 0 0 =
      Except.error Err.invalidInstallmentNumber :=
  ⟨(out_of_order_payment_spec demoActiveLoan demoProfile demoLedger 5 0 rfl rfl
      (by decide)).1 (by decide) (by decide),
   (out_of_order_payment_spec demoActiveLoan demoProfile demoLedger 0 0 rfl rfl
      (by decide)).2 (Or.inl rfl)⟩

/-- Claim C1, amended: `addLiquidity`, `removeLiquidity`,
`transferToMerchant` and `receiveEMIPayment` preserve
`available + locked = total` (all balances are `uint256` values modelled as
`Nat`, so nonnegativity holds by construction with checked subtraction);
`claimInterest`, however, pays the claimed interest out of
`availableLiquidity` without touching `totalLiquidity` or
`lockedLiquidity`, so every successful claim leaves
`available + locked` strictly below `total`. -/
theorem pool_ops_preserve_invariant (s : PoolStats) (p : LiquidityProvider)
    (L : Ledger) (amount now : Nat) (h : poolInvariant s) :
    poolInvariantAfter3 (addLiquidity s p L amount now) ∧
    poolInvariantAfter3 (removeLiquidity s p L amount now) ∧
    poolInvariantAfter2 (transferToMerchant s L amount) ∧
    poolInvariantAfter1 (receiveEMIPayment s amount) ∧
    strictDeficitAfter (claimInterest s p L now) := by
  have hinv : s.availableLiquidity + s.lockedLiquidity = s.totalLiquidity := h
  refine ⟨?_, ?_, ?_, ?_, ?_⟩
  · simp only [addLiquidity]
    split
    · trivial
    · split
      · trivial
      · split
        · trivial
        · simp only [poolInvariantAfter3, poolInvariant]
          omega
  · simp only [removeLiquidity]
    split
    · trivial
    · split
      · trivial
      · split
        · trivial
        · split
          · trivial
          · split
            · trivial
            · rename_i hact hpa hsa pending hpend tl htl
              rw [checkedSub_eq_some] at htl
              split
              · trivial
              · simp only [poolInvariantAfter3, poolInvariant]
                omega
  · simp only [transferToMerchant]
    split
    · trivial
    · split
      · trivial
      · simp only [poolInvariantAfter2, poolInvariant]
        omega
  · simp only [receiveEMIPayment]
    split
    · trivial
    · rename_i locked hlocked
      rw [checkedSub_eq_some] at hlocked
      simp only [poolInvariantAfter1, poolInvariant]
      omega
  · simp only [claimInterest]
    split
    · trivial
    · split
      · trivial
      · split
        · trivial
        · split
          · trivial
          · rename_i hact pending hpend hti hav
            split
            · trivial
            · simp only [strictDeficitAfter]
              omega

/-- Witness for `pool_ops_preserve_invariant`: a successful minimum-size
`addLiquidity` on the demo pool, and a successful interest claim showing
the strict deficit. -/
theorem pool_ops_preserve_invariant_witness :
    poolInvariantAfter3
      (addLiquidity demoPool demoProvider richLedger (1000 * 10 ^ 6) 10) ∧
    strictDeficitAfter
      (claimInterest poolBeforeClaim providerBeforeClaim demoLedger 5) :=
  ⟨(pool_ops_preserve_invariant demoPool demoProvider richLedger
      (1000 * 10 ^ 6) 10 (by decide)).1,
   (pool_ops_preserve_invariant poolBeforeClaim providerBeforeClaim demoLedger
      0 5 (by decide)).2.2.2.2⟩

/-- Claim C8 (confirmed): a successful `processDeposit` happens only with
status `Created` and the deposit unpaid; it pulls `depositAmount` from the
borrower, moves the full `totalAmount` (not `totalAmount` minus the
deposit) from available to locked liquidity and pays it to the merchant,
and sets `depositPaid` and status `Active`. When `availableLiquidity` is
short of `totalAmount` (and the borrower can fund the deposit, which is
pulled first), the whole call reverts with the insufficient-liquidity
error, changing nothing. -/
theorem processDeposit_spec (l : LoanState) (pool : PoolStats)
    (prof : Profile) (L : Ledger) (now : Nat) :
    depositOkSpec l pool L (processDeposit l pool prof L now) ∧
    (l.status = EMIStatus.Created → l.depositPaid = false →
      l.depositAmount ≤ L.borrower →
      pool.availableLiquidity < l.totalAmount →
      processDeposit l pool prof L now =
        Except.error Err.insufficientLiquidity) := by
  constructor
  · simp only [processDeposit]
    split
    · trivial
    · split
      · trivial
      · split
        · trivial
        · rename_i hdp hst _osc L₁ htok1
          split
          · trivial
          · rename_i _res pool' L₂ htm
            have hm := transferToMerchant_ok htm
            rw [transferTok_eq_some] at htok1
            simp only [depositOkSpec]
            refine ⟨by simpa using hst, by simpa using hdp, trivial, trivial, ?_, ?_, ?_, ?_, ?_⟩
            · rw [hm.2.1]
            · rw [hm.2.1]; simp [Ledger.get, Ledger.set]; omega
            · rw [hm.2.1]
            · rw [hm.2.2, htok1.2]
              have hb := htok1.1
              simp [Ledger.get, Ledger.set] at hb ⊢
              omega
            · rw [hm.2.2, htok1.2]
              simp [Ledger.get, Ledger.set]
  · intro hst hdp hbal hpool
    simp [processDeposit, hst, hdp, transferTok, Ledger.get, Ledger.set, hbal,
      transferToMerchant, Nat.not_le.mpr hpool, hpool]

/-- Witness for `processDeposit_spec`: the success shape on the demo loan
and the aborting insufficient-liquidity case on the poor pool. -/
theorem processDeposit_spec_witness :
    depositOkSpec demoLoan demoPool demoLedger
      (processDeposit demoLoan demoPool demoProfile demoLedger 0) ∧
    processDeposit demoLoan poorPool demoProfile demoLedger 0 =
      Except.error Err.insufficientLiquidity :=
  ⟨(processDeposit_spec demoLoan demoPool demoProfile demoLedger 0).1,
   (processDeposit_spec demoLoan poorPool demoProfile demoLedger 0).2 rfl rfl
     (by decide) (by decide)⟩

/-- Claim C3 counterexample: already at creation (a reachable state) the
claimed identity fails on the demo loan. No installment is paid and the
deposit is unpaid, so the left side is 0, but
`totalAmount − remainingAmount = 1200 − 1344 = −144`: the constructor
initialises `remainingAmount` to principal plus total interest, so the
deposit-and-paid-installments sum can never equal
`totalAmount − remainingAmount` while interest is outstanding. -/
theorem claimed_loan_identity_false_at_creation :
    ¬ ((sumPaid demoLoan.installments : Int) +
        (if demoLoan.depositPaid = true then (demoLoan.depositAmount : Int) else 0)
      = (demoLoan.totalAmount : Int) - (demoLoan.remainingAmount : Int)) := by
  decide

/-- Claim C3, amended: at every reachable loan state, the sum of the
amounts of installments marked `Paid`, plus the sum of the recorded early
payments, plus `remainingAmount`, equals the financed balance
`(totalAmount − depositAmount)` plus its total interest (the value
`remainingAmount` starts at). The deposit never enters `remainingAmount`,
and early payments reduce it without marking any installment `Paid`, so
they must be counted separately as here. -/
theorem loan_accounting_invariant (l : LoanState) (h : ReachableLoan l) :
    sumPaid l.installments + sumEarly l.paymentHistory + l.remainingAmount
      = loanDebt l :=
  (loanInv_of_reachable h).2.2.2

/-- Witness for `loan_accounting_invariant` at the freshly created demo
loan. -/
theorem loan_accounting_invariant_witness :
    sumPaid demoLoan.installments + sumEarly demoLoan.paymentHistory +
      demoLoan.remainingAmount = loanDebt demoLoan :=
  loan_accounting_invariant demoLoan
    (ReachableLoan.created 1200 12 1200 0 0 (by decide) (by decide))

end PayLater
